/-
Verification of the road_highlighter map-generation scripts
(src/generate_map.py and src/prepare_map.py) against their
natural-language specification.

The Python code is shallowly embedded: paths are component lists,
pandas edge tables are lists of `Edge` records, external effects
(filesystem existence, PBF loading, online fetching, geocoding) are
oracle functions passed in, and Python exceptions become `Except`
errors.
-/
import Mathlib

namespace RoadHighlighter

/-! ## Path model

A Python path is modelled as a flag for absoluteness plus the list of
components between separators.  `os.path.join` and `os.path.normpath`
are embedded on this representation. -/

/-- A filesystem path: `absolute` is true for paths starting with `/`,
`parts` are the slash-separated components. -/
structure PyPath where
  absolute : Bool
  parts : List String
deriving DecidableEq, Repr

/-- `os.path.join a b`: an absolute second argument discards the first. -/
def pyJoin (a b : PyPath) : PyPath :=
  if b.absolute then b else ⟨a.absolute, a.parts ++ b.parts⟩

/-- One step of `os.path.normpath`: drop empty and `.` components,
resolve `..` against the accumulated stack (for an absolute path a
leading `..` is dropped at the root; for a relative path leading `..`
components are kept). -/
def normStep (abs : Bool) (stack : List String) (part : String) : List String :=
  if part = "" ∨ part = "." then stack
  else if part = ".." then
    if abs then stack.dropLast
    else if stack ≠ [] ∧ stack.getLast? ≠ some ".." then stack.dropLast
    else stack ++ [".."]
  else stack ++ [part]

/-- `os.path.normpath` on the component list. -/
def normParts (abs : Bool) (parts : List String) : List String :=
  parts.foldl (normStep abs) []

/-- `os.path.normpath` on a path. -/
def normpath (p : PyPath) : PyPath :=
  ⟨p.absolute, normParts p.absolute p.parts⟩

/-- `os.path.dirname`: drop the last component. -/
def pyDirname (p : PyPath) : PyPath :=
  ⟨p.absolute, p.parts.dropLast⟩

/-- `os.path.dirname p` is the empty string exactly when `p` is relative
with at most one component. -/
def dirnameEmpty (p : PyPath) : Bool :=
  !p.absolute && p.parts.dropLast.isEmpty

/-- A component is clean when it is not `""`, `"."` or `".."`
(`os.path.abspath` results and ordinary file names satisfy this). -/
def cleanPart (s : String) : Bool :=
  !(s = "" || s = "." || s = "..")

/-! ## Config loader (generate_map.py, load_config, lines 23-41)

Only the `output` rewriting matters to the claims: a truthy `output`
value is joined under `<config_dir>/data/outputs` and normalized. -/

/-- Python truthiness of a path-valued config field: the empty string
(relative path with no components) is falsy. -/
def truthyPath : Option PyPath → Bool
  | some p => p.absolute || !p.parts.isEmpty
  | none => false

/-- `load_config`'s rewriting of the `output` field (generate_map.py
lines 36-39): when truthy, the value is joined under the fixed
`data/outputs` subdirectory of the config file's directory and
normalized; otherwise it is left unchanged. -/
def load_config_output (config_dir : PyPath) (output : Option PyPath) : Option PyPath :=
  if truthyPath output then
    let output_dir := pyJoin config_dir ⟨false, ["data", "outputs"]⟩
    some (normpath (pyJoin output_dir (output.getD ⟨false, []⟩)))
  else output

/-- The resolved path lies under the `data/outputs` subdirectory of
`config_dir`: it is absolute when `config_dir` is and extends
`config_dir.parts ++ ["data", "outputs"]`. -/
def underOutputs (config_dir : PyPath) (p : PyPath) : Prop :=
  p.absolute = config_dir.absolute ∧
  ∃ rest, p.parts = config_dir.parts ++ ["data", "outputs"] ++ rest

/-! ## Edge table model (generate_map.py, lines 194-213)

`ox.graph_to_gdfs` flattens the graph into an edge table; a column
exists exactly when at least one edge carries the attribute.  An OSM
attribute cell is either a single string or (after edge simplification)
a list of strings; a missing attribute is `none` (NaN). -/

/-- An OSM edge-attribute value: scalar string or multi-valued list. -/
inductive AttrVal where
  | str : String → AttrVal
  | list : List String → AttrVal
deriving DecidableEq, Repr

/-- A row of the flattened edge table, restricted to the attributes the
classification reads. -/
structure Edge where
  ref : Option AttrVal
  highway : Option AttrVal
deriving DecidableEq, Repr

/-- The graph is identified with its flattened edge table. -/
def Graph := List Edge
deriving instance DecidableEq for Graph

/-- `ox.graph_to_gdfs(G, nodes=False, fill_edge_geometry=True)`. -/
def graph_to_gdfs (G : Graph) : List Edge := G

/-- `pandas.Series.isin` on an attribute column against a set of
strings: a scalar cell matches by membership; a missing (NaN) cell and
a list-valued cell never match (a list is not an element of the value
set). -/
def isin (vals : List String) : Option AttrVal → Bool
  | some (.str s) => vals.contains s
  | some (.list _) => false
  | none => false

/-- The edge table has a `ref` column iff some edge carries `ref`. -/
def hasRefCol (t : List Edge) : Bool := t.any fun e => e.ref.isSome

/-- The edge table has a `highway` column iff some edge carries
`highway`. -/
def hasHighwayCol (t : List Edge) : Bool := t.any fun e => e.highway.isSome

/-- The allowed highway class set (generate_map.py line 195). -/
def allowed_highways : List String :=
  ["motorway", "trunk", "primary", "secondary", "tertiary", "unclassified"]

/-- The background-edge mask of one edge
(generate_map.py line 199). -/
def bgPred (target_refs : List String) (e : Edge) : Bool :=
  !(isin target_refs e.ref) && isin allowed_highways e.highway

/-- The classification of generate_map.py main, lines 194-213: returns
(target_edges, bg_edges, warnings).  `none` stands for Python `None`
(the variable left unset / explicitly `None`); warnings are the printed
警告 messages in program order. -/
def classify (t : List Edge) (target_refs : List String) :
    Option (List Edge) × Option (List Edge) × List String :=
  let bg : Option (List Edge) × List String :=
    if hasHighwayCol t then
      if hasRefCol t then
        (some (t.filter (bgPred target_refs)), [])
      else
        (some (t.filter fun e => isin allowed_highways e.highway),
         ["警告：数据中无 ref 列，背景道路将包含所有等级道路"])
    else (none, [])
  let tgt : Option (List Edge) × List String :=
    if hasRefCol t then
      let result := t.filter fun e => isin target_refs e.ref
      (some result,
       if result.isEmpty then ["警告：未找到匹配的重点道路"] else [])
    else (none, ["警告：无 ref 字段，无法筛选目标道路"])
  (tgt.1, bg.1, bg.2 ++ tgt.2)

/-- Modelled from the spec: the spec reads the `ref` attribute as a set
of route codes, so a multi-valued `ref` "intersects `target_refs`" when
any of its values is configured.  Used only to compare the spec's
classification rule with the code's `isin`. -/
def refIntersects (target_refs : List String) : Option AttrVal → Bool
  | some (.str s) => target_refs.contains s
  | some (.list l) => l.any fun s => target_refs.contains s
  | none => false

/-! ## Region extractor (prepare_map.py, ensure_place_bbox, lines 29-50)

Coordinates are rationals; the geocoder is an oracle returning
`gdf.total_bounds = (minx, miny, maxx, maxy)`, with `none` standing for
a geocoding exception (which the function re-raises). -/

/-- Python truthiness of an optional list value: `None`, `[]` and `()`
are falsy. -/
def truthyList {α : Type} : Option (List α) → Bool
  | some l => !l.isEmpty
  | none => false

/-- Python truthiness of an optional string: `None` and `""` are
falsy. -/
def truthyStr : Option String → Bool
  | some s => !(s == "")
  | none => false

/-- Errors raised by prepare_map.py. -/
inductive PrepErr where
  | geocodeErr -- re-raised geocoding exception (line 49)
  | valueErr   -- ValueError "必须提供 place 或 bbox" (line 50)
deriving DecidableEq, Repr

/-- prepare_map.py `ensure_place_bbox` (lines 29-50): a truthy bbox is
returned verbatim (`tuple(bbox)` keeps the entries); else a truthy
place is geocoded and the bounds are normalized to
(south, west, north, east) with south ≤ north and west ≤ east; else
ValueError. -/
def ensure_place_bbox (geocode : String → Option (ℚ × ℚ × ℚ × ℚ))
    (place : Option String) (bbox : Option (List ℚ)) : Except PrepErr (List ℚ) :=
  if truthyList bbox then .ok (bbox.getD [])
  else if truthyStr place then
    match geocode (place.getD "") with
    | none => .error .geocodeErr
    | some (minx, miny, maxx, maxy) =>
      let sn := if miny ≤ maxy then (miny, maxy) else (maxy, miny)
      let we := if minx ≤ maxx then (minx, maxx) else (maxx, minx)
      .ok [sn.1, we.1, sn.2, we.2]
  else .error .valueErr

/-! ## Network loader and main pipeline (generate_map.py, lines 79-98
and 155-216)

External effects are collected in an environment of oracles; for each
fallible call, `none` stands for the call raising an exception (or,
for `fetchBBox`/`fetchPlace`, any failure of the online download). -/

/-- Oracles for the external world of generate_map.py. -/
structure Env where
  /-- `os.path.exists` on the PBF path (line 173). -/
  pbfExists : String → Bool
  /-- `load_network_from_pbf_pyrosm` (line 178); `none` = exception. -/
  loadPBF : String → List ℚ → Option Graph
  /-- `ox.graph_from_bbox` (line 87); `none` = failure. -/
  fetchBBox : List ℚ → Option Graph
  /-- `ox.graph_from_place` (line 90); `none` = failure. -/
  fetchPlace : String → Option Graph

/-- generate_map.py `fetch_network_online` (lines 79-98): tries bbox,
then place; the internal catch-all turns every failure — including the
ValueError it raises itself when neither is given — into `None`.  This
function never raises. -/
def fetch_network_online (env : Env) (place : Option String)
    (bbox : Option (List ℚ)) : Option Graph :=
  if truthyList bbox then env.fetchBBox (bbox.getD [])
  else if truthyStr place then env.fetchPlace (place.getD "")
  else none

/-- The acquisition phase of main (lines 169-191): PBF first (skipped
with a warning when the file is missing, exceptions caught), then the
online fetch.  Because `fetch_network_online` returns `None` on failure
instead of raising, the `except` at lines 189-191 (which would raise
RuntimeError "无法获取路网数据") never fires, and the phase always
completes, possibly with `G = None`.  Returns (G, data_source). -/
def acquire (env : Env) (pbf_path place : Option String)
    (bbox : List ℚ) : Option Graph × String :=
  let afterPBF : Option Graph × String :=
    if truthyStr pbf_path then
      if env.pbfExists (pbf_path.getD "") then
        match env.loadPBF (pbf_path.getD "") bbox with
        | some G => (some G, "PBF")
        | none => (none, "")
      else (none, "")
    else (none, "")
  match afterPBF.1 with
  | some G => (some G, afterPBF.2)
  | none => (fetch_network_online env place (some bbox), "Online")

/-- The configuration mapping as main reads it (after `load_config`).
Absent keys are `none`. -/
structure Config where
  output : Option PyPath
  bbox : Option (List ℚ)
  target_roads : Option (List String)
  pbf_path : Option String
  place : Option String

/-- Errors that abort a generate_map.py run. -/
inductive MainErr where
  /-- `os.makedirs` fails: with an empty dirname it raises
  FileNotFoundError even with `exist_ok=True` (line 161). -/
  | makedirsErr
  /-- ValueError "必须配置 bbox 和 target_roads 参数" (line 165). -/
  | valueErr
  /-- RuntimeError "无法获取路网数据" (line 191) — unreachable, kept to
  state that the run never aborts with it. -/
  | dataUnavailable
  /-- `ox.graph_to_gdfs(None)` at line 194 raising on a `None` graph
  after all acquisition strategies failed. -/
  | noneGraphErr
deriving DecidableEq, Repr

/-- `os.makedirs(d, exist_ok=True)` on a writable filesystem: fails
exactly when the directory name is the empty string. -/
def makedirs (dirnameIsEmpty : Bool) : Except MainErr Unit :=
  if dirnameIsEmpty then .error .makedirsErr else .ok ()

/-- generate_map.py main, lines 159-213, from the loaded config to the
classification handed to `plot_network`: resolve the output path
(default `"road_network.svg"`), create its directory, validate bbox and
target_roads, acquire the graph, flatten and classify.  Returns the
output path, data source and classification on success. -/
def mainRun (env : Env) (cfg : Config) :
    Except MainErr (PyPath × String × (Option (List Edge) × Option (List Edge) × List String)) :=
  let output_path := cfg.output.getD ⟨false, ["road_network.svg"]⟩
  match makedirs (dirnameEmpty output_path) with
  | .error e => .error e
  | .ok _ =>
    if !truthyList cfg.bbox || !truthyList cfg.target_roads then .error .valueErr
    else
      let bbox := cfg.bbox.getD []
      let target_refs := (cfg.target_roads.getD []).dedup
      let acq := acquire env cfg.pbf_path cfg.place bbox
      match acq.1 with
      | none => .error .noneGraphErr
      | some G => .ok (output_path, acq.2, classify (graph_to_gdfs G) target_refs)

/-! ## Helper lemmas -/

/-- Folding `normStep` over clean components appends them unchanged. -/
theorem foldl_normStep_clean (abs : Bool) :
    ∀ (l : List String), l.all cleanPart = true →
      ∀ acc : List String, l.foldl (normStep abs) acc = acc ++ l
  | [], _, acc => by simp
  | p :: l, h, acc => by
    rw [List.all_cons, Bool.and_eq_true] at h
    have hp : ¬(p = "" || p = "." || p = "..") = true := by
      simpa [cleanPart] using h.1
    simp only [Bool.or_eq_true, decide_eq_true_eq] at hp
    push_neg at hp
    have hstep : normStep abs acc p = acc ++ [p] := by
      simp [normStep, hp.1.1, hp.1.2, hp.2]
    rw [List.foldl_cons, hstep, foldl_normStep_clean abs l h.2 (acc ++ [p])]
    simp

/-- When the edge table has no `ref` column, every edge's `ref` is
absent. -/
theorem ref_none_of_no_refCol {t : List Edge} (h : hasRefCol t = false)
    {e : Edge} (he : e ∈ t) : e.ref = none := by
  unfold hasRefCol at h
  rcases hr : e.ref with _ | v
  · rfl
  · exfalso
    have : t.any (fun e => e.ref.isSome) = true :=
      List.any_eq_true.mpr ⟨e, he, by rw [hr]; rfl⟩
    rw [h] at this
    exact Bool.false_ne_true this

/-- When the edge table has no `highway` column, every edge's `highway`
is absent. -/
theorem highway_none_of_no_highwayCol {t : List Edge} (h : hasHighwayCol t = false)
    {e : Edge} (he : e ∈ t) : e.highway = none := by
  unfold hasHighwayCol at h
  rcases hr : e.highway with _ | v
  · rfl
  · exfalso
    have : t.any (fun e => e.highway.isSome) = true :=
      List.any_eq_true.mpr ⟨e, he, by rw [hr]; rfl⟩
    rw [h] at this
    exact Bool.false_ne_true this

/-- Membership in the target set produced by the classification:
exactly the table rows whose `ref` cell `isin` the target set (the
empty set when the `ref` column is missing). -/
theorem mem_target_iff (t : List Edge) (target_refs : List String) (e : Edge) :
    e ∈ ((classify t target_refs).1.getD []) ↔
      e ∈ t ∧ isin target_refs e.ref = true := by
  unfold classify
  by_cases h : hasRefCol t
  · simp only [h, if_true, Option.getD_some, List.mem_filter]
  · rw [Bool.not_eq_true] at h
    simp only [h, Bool.false_eq_true, if_false, Option.getD_none, List.not_mem_nil,
      false_iff, not_and]
    intro he
    rw [ref_none_of_no_refCol h he]
    simp [isin]

/-- Membership in the background set produced by the classification:
rows whose `highway` is allowed and whose `ref` does not match a target
(vacuously true for the missing-`ref`-column fallback; the empty set
when the `highway` column is missing). -/
theorem mem_bg_iff (t : List Edge) (target_refs : List String) (e : Edge) :
    e ∈ ((classify t target_refs).2.1.getD []) ↔
      e ∈ t ∧ isin allowed_highways e.highway = true ∧
        isin target_refs e.ref = false := by
  unfold classify
  by_cases hh : hasHighwayCol t
  · by_cases hr : hasRefCol t
    · simp only [hh, hr, if_true, Option.getD_some, List.mem_filter, bgPred,
        Bool.and_eq_true, Bool.not_eq_true']
      tauto
    · rw [Bool.not_eq_true] at hr
      simp only [hh, hr, Bool.false_eq_true, if_true, if_false, Option.getD_some,
        List.mem_filter]
      constructor
      · rintro ⟨he, hw⟩
        refine ⟨he, hw, ?_⟩
        rw [ref_none_of_no_refCol hr he]
        rfl
      · rintro ⟨he, hw, -⟩
        exact ⟨he, hw⟩
  · rw [Bool.not_eq_true] at hh
    simp only [hh, Bool.false_eq_true, if_false, Option.getD_none, List.not_mem_nil,
      false_iff, not_and]
    intro he
    rw [highway_none_of_no_highwayCol hh he]
    simp [isin]

/-! ## Concrete environments for closed statements -/

/-- An environment where the PBF file is absent and every network call
fails. -/
def envAllFail : Env := ⟨fun _ => false, fun _ _ => none, fun _ => none, fun _ => none⟩

/-- An environment where every external call succeeds. -/
def envAllOk : Env :=
  ⟨fun _ => true,
   fun _ _ => some [⟨some (.str "G7"), some (.str "trunk")⟩],
   fun _ => some [⟨some (.str "G7"), some (.str "trunk")⟩],
   fun _ => some [⟨some (.str "G7"), some (.str "trunk")⟩]⟩

/-- A geocoder oracle returning bounds (minx, miny, maxx, maxy) =
(5, 4, 2, 1), deliberately reversed on both axes. -/
def gW : String → Option (ℚ × ℚ × ℚ × ℚ) := fun _ => some (5, 4, 2, 1)

/-- The spec's C1 scenario config: bbox and target_roads set, pbf_path
naming an absent file, output resolved by load_config. -/
def cfgMissingPbf : Config :=
  ⟨some ⟨true, ["proj", "data", "outputs", "map.svg"]⟩,
   some [39, 93, 39.5, 94], some ["G7"], some "missing.pbf", none⟩

/-! ## Claim theorems -/

/-- C1: with a missing PBF file and a failing online fetch, the
acquisition phase of main does NOT abort: `fetch_network_online`
swallows its failures and returns `None`, so main's RuntimeError
("无法获取路网数据") handler never fires, acquisition completes with an
absent graph and the data source logged as "Online", and the run only
dies later when `ox.graph_to_gdfs` is applied to `None` — not with the
DataUnavailableError the spec promises. -/
theorem C1_acquisition_completes_with_absent_graph :
    acquire envAllFail (some "missing.pbf") none [39, 93, 39.5, 94] = (none, "Online") ∧
    mainRun envAllFail cfgMissingPbf = .error .noneGraphErr ∧
    MainErr.noneGraphErr ≠ MainErr.dataUnavailable :=
  ⟨rfl, rfl, by decide⟩

/-- C2 counterexample: a multi-valued `ref` that intersects the
configured target set is NOT placed in target_edges, because pandas
`isin` never matches a list-valued cell. -/
theorem C2_counterexample :
    refIntersects ["G7"] (some (.list ["G7", "G30"])) = true ∧
    (⟨some (.list ["G7", "G30"]), some (.str "trunk")⟩ : Edge) ∉
      ((classify [⟨some (.list ["G7", "G30"]), some (.str "trunk")⟩] ["G7"]).1.getD []) := by
  decide

/-- C2 (amended): an edge is in target_edges iff its `ref` is a scalar
value belonging to target_refs (a multi-valued ref never matches), and
in background_edges iff its `highway` is a scalar in the allowed class
set and its `ref` is not a scalar match of target_refs. -/
theorem C2_classification_characterization (t : List Edge) (target_refs : List String)
    (e : Edge) :
    (e ∈ ((classify t target_refs).1.getD []) ↔
      e ∈ t ∧ isin target_refs e.ref = true) ∧
    (e ∈ ((classify t target_refs).2.1.getD []) ↔
      e ∈ t ∧ isin allowed_highways e.highway = true ∧
        isin target_refs e.ref = false) :=
  ⟨mem_target_iff t target_refs e, mem_bg_iff t target_refs e⟩

/-- C3 counterexample: an edge whose `highway` is outside the allowed
class set but whose `ref` matches a target appears in target_edges
(the target selection at line 209 has no highway filter). -/
theorem C3_counterexample :
    isin allowed_highways (some (.str "residential")) = false ∧
    (⟨some (.str "G7"), some (.str "residential")⟩ : Edge) ∈
      ((classify [⟨some (.str "G7"), some (.str "residential")⟩] ["G7"]).1.getD []) := by
  decide

/-- C3 (amended): an edge whose `highway` is not in the allowed class
set never appears in background_edges; it appears in target_edges
exactly when its `ref` matches target_refs. -/
theorem C3_disallowed_highway (t : List Edge) (target_refs : List String) (e : Edge)
    (h : isin allowed_highways e.highway = false) :
    e ∉ ((classify t target_refs).2.1.getD []) ∧
    (e ∈ ((classify t target_refs).1.getD []) ↔
      e ∈ t ∧ isin target_refs e.ref = true) := by
  refine ⟨fun hmem => ?_, mem_target_iff t target_refs e⟩
  rw [mem_bg_iff] at hmem
  rw [h] at hmem
  exact Bool.false_ne_true hmem.2.1

/-- Witness for C3 at a concrete residential edge. -/
theorem C3_disallowed_highway_witness :
    (⟨none, some (.str "residential")⟩ : Edge) ∉
      ((classify [(⟨none, some (.str "residential")⟩ : Edge)] ["G7"]).2.1.getD []) ∧
    ((⟨none, some (.str "residential")⟩ : Edge) ∈
      ((classify [(⟨none, some (.str "residential")⟩ : Edge)] ["G7"]).1.getD []) ↔
      (⟨none, some (.str "residential")⟩ : Edge) ∈
        [(⟨none, some (.str "residential")⟩ : Edge)] ∧
      isin ["G7"] (none : Option AttrVal) = true) :=
  C3_disallowed_highway [⟨none, some (.str "residential")⟩] ["G7"]
    ⟨none, some (.str "residential")⟩ (by decide)

/-- C4: the two classification outputs are disjoint. -/
theorem C4_target_background_disjoint (t : List Edge) (target_refs : List String) :
    ((classify t target_refs).1.getD []) ∩ ((classify t target_refs).2.1.getD []) = [] := by
  rw [List.inter_eq_nil_iff_disjoint]
  intro e h1 h2
  rw [mem_target_iff] at h1
  rw [mem_bg_iff] at h2
  rw [h1.2] at h2
  exact Bool.false_ne_true h2.2.2.symm

/-- C5 counterexample: on a non-empty edge table lacking both `ref` and
`highway`, background_edges is `None` (nothing is drawn), not the
claimed fallback "set of all edges". -/
theorem C5_counterexample :
    (classify [(⟨none, none⟩ : Edge)] ["G7"]).2.1 = none ∧
    [(⟨none, none⟩ : Edge)] ≠ [] := by
  exact ⟨rfl, by decide⟩

/-- C5 (amended): a missing `ref` column yields target_edges = None
(rendered as empty) together with a surfaced warning, without failing;
a missing `highway` column yields background_edges = None — no
background at all, not "all edges" — still without a crash (`classify`
is total). -/
theorem C5_missing_columns (t : List Edge) (target_refs : List String) :
    (hasRefCol t = false →
      (classify t target_refs).1 = none ∧ (classify t target_refs).2.2 ≠ []) ∧
    (hasHighwayCol t = false → (classify t target_refs).2.1 = none) := by
  constructor
  · intro h
    refine ⟨by simp [classify, h], ?_⟩
    simp [classify, h]
  · intro h
    simp [classify, h]

/-- Witness for C5 on a one-row table lacking both columns. -/
theorem C5_missing_columns_witness :
    ((classify [(⟨none, none⟩ : Edge)] ["S1"]).1 = none ∧
      (classify [(⟨none, none⟩ : Edge)] ["S1"]).2.2 ≠ []) ∧
    (classify [(⟨none, none⟩ : Edge)] ["S1"]).2.1 = none :=
  ⟨(C5_missing_columns [⟨none, none⟩] ["S1"]).1 (by decide),
   (C5_missing_columns [⟨none, none⟩] ["S1"]).2 (by decide)⟩

/-- C6 counterexample: an `output` value carrying parent-directory
components resolves outside the `data/outputs` subdirectory —
`normpath` collapses the `..` after joining, so the forced subdirectory
does not confine the path. -/
theorem C6_counterexample :
    load_config_output ⟨true, ["home", "user"]⟩ (some ⟨false, ["..", "..", "evil.svg"]⟩) =
      some ⟨true, ["home", "user", "evil.svg"]⟩ ∧
    ¬ underOutputs ⟨true, ["home", "user"]⟩ ⟨true, ["home", "user", "evil.svg"]⟩ := by
  refine ⟨by decide, ?_⟩
  rintro ⟨-, rest, hrest⟩
  have := congrArg (fun l => l.get? 2) hrest
  simp at this

/-- C6 (amended): the loader joins a truthy `output` under the fixed
`data/outputs` subdirectory of the config directory and normalizes; a
relative output value free of `""`/`.`/`..` components resolves under
that subdirectory, but values with parent-directory components (or
absolute values) are not confined. -/
theorem C6_clean_output_under_outputs (config_dir o : PyPath)
    (hcd : config_dir.parts.all cleanPart = true)
    (habs : o.absolute = false)
    (hcl : o.parts.all cleanPart = true)
    (hne : o.parts ≠ []) :
    load_config_output config_dir (some o) =
      some ⟨config_dir.absolute, config_dir.parts ++ ["data", "outputs"] ++ o.parts⟩ ∧
    underOutputs config_dir
      ⟨config_dir.absolute, config_dir.parts ++ ["data", "outputs"] ++ o.parts⟩ := by
  refine ⟨?_, rfl, o.parts, rfl⟩
  have htr : truthyPath (some o) = true := by
    simp [truthyPath, hne]
  unfold load_config_output
  rw [htr]
  simp only [if_true, Option.getD_some, pyJoin, habs, Bool.false_eq_true, if_false,
    normpath, normParts]
  have hall : (config_dir.parts ++ ["data", "outputs"] ++ o.parts).all cleanPart = true := by
    simp only [List.all_append, Bool.and_eq_true]
    exact ⟨⟨hcd, by decide⟩, hcl⟩
  rw [foldl_normStep_clean config_dir.absolute _ hall []]
  simp

/-- Witness for C6 with a clean relative file name. -/
theorem C6_clean_output_under_outputs_witness :
    load_config_output ⟨true, ["home", "user"]⟩ (some ⟨false, ["map.svg"]⟩) =
      some ⟨true, ["home", "user"] ++ ["data", "outputs"] ++ ["map.svg"]⟩ ∧
    underOutputs ⟨true, ["home", "user"]⟩
      ⟨true, ["home", "user"] ++ ["data", "outputs"] ++ ["map.svg"]⟩ :=
  C6_clean_output_under_outputs ⟨true, ["home", "user"]⟩ ⟨false, ["map.svg"]⟩
    (by decide) rfl (by decide) (by decide)

/-- C7: `ensure_place_bbox` returns a truthy user-supplied bbox
verbatim; a geocoded result is always normalized to south ≤ north and
west ≤ east whatever the geocoder's ordering; and with neither bbox nor
place it raises ValueError. -/
theorem C7_resolve_bbox (geocode : String → Option (ℚ × ℚ × ℚ × ℚ)) :
    (∀ place l, l ≠ [] → ensure_place_bbox geocode place (some l) = .ok l) ∧
    (∀ s minx miny maxx maxy, s ≠ "" →
      geocode s = some (minx, miny, maxx, maxy) →
      ∃ S W N E, ensure_place_bbox geocode (some s) none = .ok [S, W, N, E] ∧
        S ≤ N ∧ W ≤ E) ∧
    ensure_place_bbox geocode none none = .error .valueErr := by
  refine ⟨fun place l hl => ?_, fun s minx miny maxx maxy hs hg => ?_, rfl⟩
  · have htr : truthyList (some l) = true := by simp [truthyList, hl]
    unfold ensure_place_bbox
    rw [htr]
    simp
  · have hb : truthyList (none : Option (List ℚ)) = false := rfl
    have hp : truthyStr (some s) = true := by simp [truthyStr, hs]
    unfold ensure_place_bbox
    rw [hb, hp]
    simp only [Bool.false_eq_true, if_false, if_true, Option.getD_some]
    rw [hg]
    refine ⟨_, _, _, _, rfl, ?_, ?_⟩
    · dsimp only
      split_ifs with h
      · exact h
      · exact le_of_not_le h
    · dsimp only
      split_ifs with h
      · exact h
      · exact le_of_not_le h

/-- Witness for C7: verbatim bbox, a reversed geocoder output
normalized, and the ValueError case, at concrete inputs. -/
theorem C7_resolve_bbox_witness :
    ensure_place_bbox gW none (some [39, 93, 40, 94]) = .ok [39, 93, 40, 94] ∧
    (∃ S W N E, ensure_place_bbox gW (some "Hami") none = .ok [S, W, N, E] ∧
      S ≤ N ∧ W ≤ E) ∧
    ensure_place_bbox gW none none = .error .valueErr :=
  ⟨(C7_resolve_bbox gW).1 none [39, 93, 40, 94] (by decide),
   (C7_resolve_bbox gW).2.1 "Hami" 5 4 2 1 (by decide) rfl,
   (C7_resolve_bbox gW).2.2⟩

/-- C9: a falsy bbox (`None` or `[]`) behaves exactly like an absent
one — with a place the function geocodes, with neither truthy input it
raises ValueError — and an empty bbox is never returned. -/
theorem C9_falsy_bbox (geocode : String → Option (ℚ × ℚ × ℚ × ℚ)) :
    (∀ place, ensure_place_bbox geocode place (some []) =
      ensure_place_bbox geocode place none) ∧
    (∀ place, truthyStr place = false →
      ensure_place_bbox geocode place (some []) = .error .valueErr) ∧
    (∀ place bbox, ensure_place_bbox geocode place bbox ≠ .ok []) := by
  refine ⟨fun place => rfl, fun place h => ?_, fun place bbox h => ?_⟩
  · unfold ensure_place_bbox
    rw [h]
    rfl
  · unfold ensure_place_bbox at h
    split at h
    · rename_i hb
      rcases bbox with _ | l
      · exact absurd hb (by simp [truthyList])
      · simp only [Option.getD_some, Except.ok.injEq] at h
        subst h
        exact absurd hb (by simp [truthyList])
    · split at h
      · split at h
        · exact absurd h (by simp)
        · simp at h
      · exact absurd h (by simp)

/-- Witness for C9 at concrete falsy inputs. -/
theorem C9_falsy_bbox_witness :
    ensure_place_bbox gW (some "Hami") (some []) =
      ensure_place_bbox gW (some "Hami") none ∧
    ensure_place_bbox gW none (some []) = .error .valueErr ∧
    ensure_place_bbox gW none (some []) ≠ .ok [] :=
  ⟨(C9_falsy_bbox gW).1 (some "Hami"),
   (C9_falsy_bbox gW).2.1 none rfl,
   (C9_falsy_bbox gW).2.2 none (some [])⟩

/-- Validation failures happen before acquisition: when bbox or
target_roads is falsy, the run's outcome never depends on the
filesystem or network oracles, and it is ValueError unless the
output-directory creation already failed on an empty dirname. -/
theorem mainRun_invalid_config (env : Env) (cfg : Config)
    (h : truthyList cfg.bbox = false ∨ truthyList cfg.target_roads = false) :
    mainRun env cfg =
      .error (if dirnameEmpty (cfg.output.getD ⟨false, ["road_network.svg"]⟩)
        then MainErr.makedirsErr else MainErr.valueErr) := by
  unfold mainRun makedirs
  by_cases hd : dirnameEmpty (cfg.output.getD ⟨false, ["road_network.svg"]⟩) = true
  · simp [hd]
  · rw [Bool.not_eq_true] at hd
    have hc : (!truthyList cfg.bbox || !truthyList cfg.target_roads) = true := by
      rcases h with h | h <;> simp [h]
    simp [hd, hc]

/-- C8 counterexample: with empty `target_roads` AND no configured
`output`, the run fails before the validation check — at
`os.makedirs(os.path.dirname("road_network.svg"))`, an empty dirname —
so the error raised is FileNotFoundError, not the claimed configuration
error (still before any acquisition). -/
theorem C8_counterexample :
    mainRun envAllOk ⟨none, some [39, 93, 40, 94], some [], some "x.pbf", none⟩ =
      .error .makedirsErr ∧
    MainErr.makedirsErr ≠ MainErr.valueErr :=
  ⟨rfl, by decide⟩

/-- C8 (amended): empty `target_roads` (or falsy bbox) aborts the run
before any acquisition strategy: the outcome is independent of the
filesystem and network oracles (no local file is read, no fetch
happens), and it is the ValueError configuration error whenever the
resolved output path has a directory component; with a bare default
output file name the run fails even earlier, in directory creation. -/
theorem C8_validation_before_acquisition (env env' : Env) (cfg : Config)
    (h : truthyList cfg.bbox = false ∨ truthyList cfg.target_roads = false) :
    mainRun env cfg = mainRun env' cfg ∧
    (dirnameEmpty (cfg.output.getD ⟨false, ["road_network.svg"]⟩) = false →
      mainRun env cfg = .error .valueErr) := by
  refine ⟨(mainRun_invalid_config env cfg h).trans (mainRun_invalid_config env' cfg h).symm,
    fun hd => ?_⟩
  rw [mainRun_invalid_config env cfg h, hd]
  rfl

/-- Witness for C8: empty target_roads with a configured output gives
ValueError for both an all-failing and an all-succeeding world. -/
theorem C8_validation_before_acquisition_witness :
    mainRun envAllFail
        ⟨some ⟨true, ["proj", "data", "outputs", "m.svg"]⟩, some [39, 93, 40, 94],
         some [], some "x.pbf", none⟩ =
      mainRun envAllOk
        ⟨some ⟨true, ["proj", "data", "outputs", "m.svg"]⟩, some [39, 93, 40, 94],
         some [], some "x.pbf", none⟩ ∧
    (dirnameEmpty ((some (⟨true, ["proj", "data", "outputs", "m.svg"]⟩ : PyPath)).getD
        ⟨false, ["road_network.svg"]⟩) = false →
      mainRun envAllFail
        ⟨some ⟨true, ["proj", "data", "outputs", "m.svg"]⟩, some [39, 93, 40, 94],
         some [], some "x.pbf", none⟩ = .error .valueErr) :=
  C8_validation_before_acquisition envAllFail envAllOk
    ⟨some ⟨true, ["proj", "data", "outputs", "m.svg"]⟩, some [39, 93, 40, 94],
     some [], some "x.pbf", none⟩ (Or.inr rfl)

/-- C10: whenever the resolved output path has no directory component
(as with the default bare `"road_network.svg"`), the run fails in the
directory-creation call — `makedirs` is invoked on the empty dirname
and raises — for every environment, so nothing is acquired, rendered
or written to the current directory. -/
theorem C10_bare_output_fails (env env' : Env) (cfg : Config)
    (h : dirnameEmpty (cfg.output.getD ⟨false, ["road_network.svg"]⟩) = true) :
    mainRun env cfg = .error .makedirsErr ∧
    mainRun env cfg = mainRun env' cfg ∧
    makedirs (dirnameEmpty (cfg.output.getD ⟨false, ["road_network.svg"]⟩)) =
      .error .makedirsErr := by
  have key : ∀ e : Env, mainRun e cfg = .error .makedirsErr := by
    intro e
    unfold mainRun makedirs
    simp [h]
  exact ⟨key env, (key env).trans (key env').symm, by rw [h]; rfl⟩

/-- Witness for C10: a config with no `output` key resolves to the bare
default file name and fails in directory creation in both worlds. -/
theorem C10_bare_output_fails_witness :
    mainRun envAllOk ⟨none, some [39, 93, 40, 94], some ["G7"], some "x.pbf", none⟩ =
      .error .makedirsErr ∧
    mainRun envAllOk ⟨none, some [39, 93, 40, 94], some ["G7"], some "x.pbf", none⟩ =
      mainRun envAllFail ⟨none, some [39, 93, 40, 94], some ["G7"], some "x.pbf", none⟩ ∧
    makedirs (dirnameEmpty ((none : Option PyPath).getD ⟨false, ["road_network.svg"]⟩)) =
      .error .makedirsErr :=
  C10_bare_output_fails envAllOk envAllFail
    ⟨none, some [39, 93, 40, 94], some ["G7"], some "x.pbf", none⟩ (by decide)

end RoadHighlighter
